import Mathlib

/-!
Verification of the METARMap script (metarthread.py, iteration 1.4.2).

Shallow embedding of the condition-classification pipeline (get_weather),
the target-state calculator (calc_target_colors), the blink task (blinkme)
and the blink-thread bookkeeping of the main display loop.  Machine floats
of the source are modelled as exact rationals; Python dictionaries as
association lists; the network fetch and XML parse as an Except-valued
input; exceptions raised by the code as Except.error results.
-/

/-! ## Configuration constants (source lines 22-72) -/

def LED_COUNT : Nat := 50

def COLOR_VFR : Int × Int × Int := (255, 0, 0)

def COLOR_MVFR : Int × Int × Int := (0, 0, 255)

def COLOR_IFR : Int × Int × Int := (0, 255, 0)

def COLOR_LIFR : Int × Int × Int := (0, 125, 125)

def COLOR_CLEAR : Int × Int × Int := (0, 0, 0)

def COLOR_LIGHTNING : Int × Int × Int := (255, 255, 255)

def ACTIVATE_WINDCONDITION_ANIMATION : Bool := true

def WIND_BLINK_THRESHOLD : Int := 25

def ALWAYS_BLINK_FOR_GUSTS : Bool := false

def BLINK_SPEED : ℚ := 2

def REFRESH_TIME_SECONDS : ℚ := 1800

def DISPLAY_ROTATION_SPEED : ℚ := 5

def FAST_BLINK_DISPLAYED_STATION : Bool := true

def FAST_BLINK_SPEED : ℚ := 1 / 10

def DONTSTOP : Int := -1

/-- The three configuration switches that feed classification and animation.
The source holds them as module-level constants; the claims quantify over
their settings, so the embedding passes them as an explicit record. -/
structure Config where
  activateWind : Bool
  windBlinkThreshold : Int
  alwaysBlinkForGusts : Bool
deriving DecidableEq

/-- The configuration values actually set in the source file. -/
def sourceConfig : Config :=
  { activateWind := ACTIVATE_WINDCONDITION_ANIMATION
    windBlinkThreshold := WIND_BLINK_THRESHOLD
    alwaysBlinkForGusts := ALWAYS_BLINK_FOR_GUSTS }

/-! ## Python numeric helpers -/

/-- Python 3 round() to the nearest integer, ties to even (banker's rounding). -/
def pyRound (q : ℚ) : Int :=
  let f := ⌊q⌋
  let frac := q - f
  if frac < 1 / 2 then f
  else if 1 / 2 < frac then f + 1
  else if f % 2 = 0 then f else f + 1

/-- Python round(x, 2): round to two decimal places (source line 209). -/
def pyRound2 (q : ℚ) : ℚ :=
  (pyRound (q * 100) : ℚ) / 100

/-- Python int() applied to a quotient: truncation toward zero. -/
def pyInt (q : ℚ) : Int :=
  if 0 ≤ q then ⌊q⌋ else ⌈q⌉

/-- rawText.find of the literal token LTG is not -1, i.e. the raw METAR
text contains the lightning marker (source line 219). -/
def containsLTG (s : String) : Bool :=
  decide ((s.splitOn "LTG").length ≥ 2)

/-! ## Data model -/

/-- One sky_condition element of the feed: both attributes optional,
cloud_base_ft_agl defaulting to 0 (source line 215). -/
structure SkyElem where
  sky_cover : Option String := none
  cloud_base_ft_agl : Option Int := none
deriving DecidableEq

/-- A sky-condition entry as stored in the condition dictionary. -/
structure SkyCond where
  cover : Option String
  cloudBaseFt : Int
deriving DecidableEq

/-- One raw METAR element of the feed response.  Every child element may be
absent; numeric text is modelled as the already-parsed number, the
observation time as an abstract integer timestamp. -/
structure RawMetar where
  station_id : String := ""
  flight_category : Option String := none
  wind_gust_kt : Option Int := none
  wind_speed_kt : Option Int := none
  wind_dir_degrees : Option String := none
  temp_c : Option ℚ := none
  dewpoint_c : Option ℚ := none
  visibility_statute_mi : Option ℚ := none
  altim_in_hg : Option ℚ := none
  wx_string : Option String := none
  observation_time : Option Int := none
  sky_conditions : List SkyElem := []
  raw_text : Option String := none
deriving DecidableEq

/-- The per-station value stored in conditionDict (source line 229). -/
structure Condition where
  flightCategory : String
  windDir : String
  windSpeed : Int
  windGustSpeed : Int
  windGust : Bool
  vis : Int
  obs : String
  tempC : Int
  dewpointC : Int
  altimHg : ℚ
  lightning : Bool
  skyConditions : List SkyCond
  obsTime : Int
deriving DecidableEq

/-! ## Python dict as an association list -/

/-- dict.get(k, None): first binding for the key, if any. -/
def dictGet {α : Type} (d : List (String × α)) (k : String) : Option α :=
  (d.find? (fun p => p.1 == k)).map Prod.snd

/-- d[k] = v: overwrite an existing binding in place, else append. -/
def dictSet {α : Type} (d : List (String × α)) (k : String) (v : α) : List (String × α) :=
  if (d.find? (fun p => p.1 == k)).isSome then
    d.map (fun p => if p.1 == k then (k, v) else p)
  else
    d ++ [(k, v)]

/-! ## get_weather (source lines 166-231) -/

/-- windGust as computed at source lines 195-197: stays False when the
wind_gust_kt element is absent; otherwise ALWAYS_BLINK_FOR_GUSTS or the
gust speed exceeding the threshold. -/
def windGustOf (cfg : Config) (m : RawMetar) : Bool :=
  match m.wind_gust_kt with
  | some g => cfg.alwaysBlinkForGusts || decide (g > cfg.windBlinkThreshold)
  | none => false

/-- The conditionDict entry built at source lines 184-229 for a record whose
flight_category is present, given the resolved value of the local variable
obsTime.  Absent optional fields take the defaults set at lines 184-194. -/
def mkCondition (cfg : Config) (m : RawMetar) (flightCategory : String) (obsTime : Int) :
    Condition :=
  { flightCategory := flightCategory
    windDir := m.wind_dir_degrees.getD ""
    windSpeed := m.wind_speed_kt.getD 0
    windGustSpeed := m.wind_gust_kt.getD 0
    windGust := windGustOf cfg m
    vis := (m.visibility_statute_mi.map pyRound).getD 0
    obs := m.wx_string.getD ""
    tempC := (m.temp_c.map pyRound).getD 0
    dewpointC := (m.dewpoint_c.map pyRound).getD 0
    altimHg := (m.altim_in_hg.map pyRound2).getD 0
    lightning := match m.raw_text with
      | some t => containsLTG t
      | none => false
    skyConditions := m.sky_conditions.map
      (fun e => { cover := e.sky_cover, cloudBaseFt := e.cloud_base_ft_agl.getD 0 })
    obsTime := obsTime }

/-- The METAR iteration of get_weather (source lines 178-230).  The local
variable obsTime has no default assignment in the source: it is only set
inside the observation_time branch at line 213, so it carries the previous
record's stale value across iterations, and reading it at line 229 before
any assignment raises UnboundLocalError.  A record with no flight_category
is skipped at lines 180-182 (a message is printed and the loop continues).
The dict literal of line 175 is popped at line 176, so the fold starts from
the empty dictionary; the local stationList is never returned and is
omitted. -/
def getWeatherAux (cfg : Config) :
    List RawMetar → Option Int → List (String × Condition) →
      Except String (List (String × Condition))
  | [], _, conditionDict => Except.ok conditionDict
  | m :: rest, obsVar, conditionDict =>
    match m.flight_category with
    | none => getWeatherAux cfg rest obsVar conditionDict
    | some fc =>
      let obsVar2 := match m.observation_time with
        | some t => some t
        | none => obsVar
      match obsVar2 with
      | none => Except.error "UnboundLocalError: obsTime"
      | some t =>
          getWeatherAux cfg rest obsVar2
            (dictSet conditionDict m.station_id (mkCondition cfg m fc t))

/-- get_weather: the network fetch and XML parse are external; their outcome
is the response argument.  Any exception they raise propagates, since the
function body has no handler (source lines 166-174). -/
def get_weather (cfg : Config) (response : Except String (List RawMetar)) :
    Except String (List (String × Condition)) :=
  match response with
  | Except.error e => Except.error e
  | Except.ok root => getWeatherAux cfg root none []

/-! ## calc_target_colors (source lines 234-264) -/

/-- windy as computed at source line 245. -/
def windyOf (cfg : Config) (condition : Condition) : Bool :=
  cfg.activateWind &&
    (decide (condition.windSpeed > cfg.windBlinkThreshold) || condition.windGust)

/-- The (color, windy) pair appended for one airport code
(source lines 236-262). -/
def targetEntry (cfg : Config) (conditions : List (String × Condition))
    (airportcode : String) : (Int × Int × Int) × Bool :=
  if airportcode = "" then (COLOR_CLEAR, false)
  else
    match dictGet conditions airportcode with
    | none => (COLOR_CLEAR, false)
    | some condition =>
      let windy := windyOf cfg condition
      let color :=
        if condition.lightning then COLOR_LIGHTNING
        else if condition.flightCategory = "VFR" then COLOR_VFR
        else if condition.flightCategory = "MVFR" then COLOR_MVFR
        else if condition.flightCategory = "IFR" then COLOR_IFR
        else if condition.flightCategory = "LIFR" then COLOR_LIFR
        else COLOR_CLEAR
      (color, windy)

/-- calc_target_colors: one (color, blink) value per station, in list
order. -/
def calc_target_colors (cfg : Config) (stations : List String)
    (conditions : List (String × Condition)) : List ((Int × Int × Int) × Bool) :=
  stations.map (targetEntry cfg conditions)

/-- The fetch-classify-compute portion of one iteration of the main display
loop (source lines 288-289): conditionDict = get_weather(airports);
ledstate = calc_target_colors(airports, conditionDict).  There is no
try/except anywhere in the loop, so a fetch or parse failure propagates. -/
def refresh_cycle (cfg : Config) (airports : List String)
    (response : Except String (List RawMetar)) :
    Except String (List ((Int × Int × Int) × Bool)) := do
  let conditionDict ← get_weather cfg response
  pure (calc_target_colors cfg airports conditionDict)

/-! ## blinkme (source lines 99-112) -/

/-- The observable events of one blinkme run: a write of a color to the
task's pixel, a pixels.show flush, a sleep of half the blink rate, and a
read of the STOPFLAG global (the cancellation poll). -/
inductive BlinkEv where
  | write : Int × Int × Int → BlinkEv
  | showEv : BlinkEv
  | sleepHalf : BlinkEv
  | check : BlinkEv
deriving DecidableEq

/-- The event sequence of one iteration of the blinkme for-loop
(source lines 102-111): clear, flush, half sleep, on color, flush,
half sleep, then the single STOPFLAG poll at the end of the cycle. -/
def blinkBlock (color : Int × Int × Int) : List BlinkEv :=
  [BlinkEv.write COLOR_CLEAR, BlinkEv.showEv, BlinkEv.sleepHalf,
   BlinkEv.write color, BlinkEv.showEv, BlinkEv.sleepHalf, BlinkEv.check]

/-- The for-loop of blinkme with n iterations remaining, where stopflag i
is the value the STOPFLAG global holds at the poll of iteration i: the
iteration runs in full and the loop breaks afterwards when the flag names
this pixel. -/
def blinkmeGo (stopflag : Nat → Int) (pixelnum : Int) (color : Int × Int × Int) :
    Nat → Nat → List BlinkEv
  | _, 0 => []
  | i, n + 1 =>
    blinkBlock color ++
      (if stopflag i = pixelnum then [] else blinkmeGo stopflag pixelnum color (i + 1) n)

/-- blinkme(pixelnum, color, time, blinkrate): numblinks = int(time/blinkrate)
iterations of the blink cycle (source line 100), a Python range being empty
when that bound is not positive. -/
def blinkme (stopflag : Nat → Int) (pixelnum : Int) (color : Int × Int × Int)
    (time blinkrate : ℚ) : List BlinkEv :=
  blinkmeGo stopflag pixelnum color 0 (pyInt (time / blinkrate)).toNat

/-- Number of STOPFLAG polls in a trace. -/
def checksIn : List BlinkEv → Nat
  | [] => 0
  | BlinkEv.check :: tl => checksIn tl + 1
  | _ :: tl => checksIn tl

/-- Number of half-period sleeps in a trace. -/
def halfSleepsIn : List BlinkEv → Nat
  | [] => 0
  | BlinkEv.sleepHalf :: tl => halfSleepsIn tl + 1
  | _ :: tl => halfSleepsIn tl

/-- The sequence of colors a trace writes to the task's pixel. -/
def writesOf : List BlinkEv → List (Int × Int × Int)
  | [] => []
  | BlinkEv.write c :: tl => c :: writesOf tl
  | _ :: tl => writesOf tl

/-! ## Blink-thread bookkeeping of the main display loop (lines 285-351) -/

/-- threadarray after the start-up pass of lines 299-307: a live blink
thread exactly at each position whose ledstate entry is flagged windy. -/
def start_threads (ledstate : List ((Int × Int × Int) × Bool)) : List Bool :=
  ledstate.map (fun led => led.2)

/-- Effect of visiting one station of the rotation (lines 317-339) on the
liveness of that position's blink thread: a windy position is
cancel-and-joined first when fast blinking is on (lines 319-322); then, if
the station is not the NULL placeholder and has a condition, the fast-blink
branch restarts the thread for windy positions (lines 327-336). -/
def rotate_station (fastBlink : Bool) (conditionDict : List (String × Condition))
    (metarStation : String) (led : (Int × Int × Int) × Bool) (live : Bool) : Bool :=
  let live1 := if fastBlink && led.2 then false else live
  if (metarStation != "NULL") && (dictGet conditionDict metarStation).isSome then
    if fastBlink then (if led.2 then true else live1) else live1
  else live1

/-- One pass of the inner rotation loop over the station list, position
index advancing with the list; positions beyond the station list are
untouched. -/
def rotation_pass (fastBlink : Bool) (conditionDict : List (String × Condition)) :
    List String → List ((Int × Int × Int) × Bool) → List Bool → List Bool
  | s :: ss, led :: leds, l :: ls =>
    rotate_station fastBlink conditionDict s led l ::
      rotation_pass fastBlink conditionDict ss leds ls
  | _, _, ls => ls

/-- The kill-all pass of lines 343-347: every windy position's thread is
cancel-and-joined; other entries of threadarray are left as they are. -/
def join_all_windy : List ((Int × Int × Int) × Bool) → List Bool → List Bool
  | led :: leds, l :: ls => (if led.2 then false else l) :: join_all_windy leds ls
  | _, ls => ls

/-- Which blink threads are still live when one pass of the main display
loop reaches its end (line 351), i.e. at the top of the next refresh cycle.
With an external display (line 311) the rotation runs num_display_loops
times and the kill-all pass follows; with no display the loop only sleeps
for the refresh time (line 350) and no thread is ever joined. -/
def cycle_end_threads (hasDisplay fastBlink : Bool) (numLoops : Nat)
    (airports : List String) (conditionDict : List (String × Condition))
    (ledstate : List ((Int × Int × Int) × Bool)) : List Bool :=
  let live := start_threads ledstate
  if hasDisplay then
    join_all_windy ledstate
      ((fun l => rotation_pass fastBlink conditionDict airports ledstate l)^[numLoops] live)
  else live

/-- num_display_loops as computed at source line 291. -/
def num_display_loops (airports : List String) : Nat :=
  (pyInt (REFRESH_TIME_SECONDS / (DISPLAY_ROTATION_SPEED * airports.length))).toNat

/-! ## Concrete feed records used by counterexamples and witnesses -/

/-- A raw record whose flight_category element is absent. -/
def recNoCategory : RawMetar :=
  { station_id := "KBOS" }

/-- A VFR record for KBOS with 30 kt wind speed and an observation time. -/
def recKBOS : RawMetar :=
  { station_id := "KBOS", flight_category := some "VFR",
    wind_speed_kt := some 30, observation_time := some 0 }

/-- The classified condition of recKBOS. -/
def condKBOS : Condition :=
  mkCondition sourceConfig recKBOS "VFR" 0

/-- A record with a flight category whose observation_time element is
absent, along with every other optional element. -/
def recNoObsTime : RawMetar :=
  { station_id := "KJFK", flight_category := some "VFR" }

/-- A record carrying only a flight category and an observation time:
every other optional element is absent. -/
def recOnlyObsTime : RawMetar :=
  { station_id := "KJFK", flight_category := some "VFR",
    observation_time := some 0 }

/-- A condition reporting both lightning and an IFR flight category. -/
def condLightningIFR : Condition :=
  { flightCategory := "IFR", windDir := "", windSpeed := 0, windGustSpeed := 0,
    windGust := false, vis := 10, obs := "TS", tempC := 20, dewpointC := 10,
    altimHg := 0, lightning := true, skyConditions := [], obsTime := 0 }

/-- A gusty record for KBOS: 30 kt gusts over a calm 10 kt wind. -/
def recGusty : RawMetar :=
  { station_id := "KBOS", flight_category := some "VFR",
    wind_gust_kt := some 30, wind_speed_kt := some 10,
    observation_time := some 0 }

/-- Invariant of the thread-liveness list: a live entry sits only at a
position whose ledstate entry is flagged windy (positionwise along the two
lists). -/
def liveOnlyWindy : List Bool → List ((Int × Int × Int) × Bool) → Prop
  | [], _ => True
  | _ :: _, [] => False
  | l :: ls, led :: leds => (l = true → led.2 = true) ∧ liveOnlyWindy ls leds

/-! ## Helper lemmas on blink traces -/

theorem checksIn_append (a b : List BlinkEv) :
    checksIn (a ++ b) = checksIn a + checksIn b := by
  induction a with
  | nil => simp [checksIn]
  | cons e tl ih => cases e <;> simp [checksIn, ih] <;> omega

theorem halfSleepsIn_append (a b : List BlinkEv) :
    halfSleepsIn (a ++ b) = halfSleepsIn a + halfSleepsIn b := by
  induction a with
  | nil => simp [halfSleepsIn]
  | cons e tl ih => cases e <;> simp [halfSleepsIn, ih] <;> omega

theorem writesOf_append (a b : List BlinkEv) :
    writesOf (a ++ b) = writesOf a ++ writesOf b := by
  induction a with
  | nil => simp [writesOf]
  | cons e tl ih => cases e <;> simp [writesOf, ih]

theorem checksIn_join_replicate (c : Int × Int × Int) :
    ∀ k, checksIn (List.flatten (List.replicate k (blinkBlock c))) = k
  | 0 => rfl
  | k + 1 => by
    rw [List.replicate_succ, List.flatten_cons, checksIn_append,
      checksIn_join_replicate c k]
    simp [blinkBlock, checksIn]
    omega

theorem halfSleepsIn_join_replicate (c : Int × Int × Int) :
    ∀ k, halfSleepsIn (List.flatten (List.replicate k (blinkBlock c))) = 2 * k
  | 0 => rfl
  | k + 1 => by
    rw [List.replicate_succ, List.flatten_cons, halfSleepsIn_append,
      halfSleepsIn_join_replicate c k]
    simp [blinkBlock, halfSleepsIn]
    omega

theorem writesOf_join_replicate (c : Int × Int × Int) :
    ∀ k, writesOf (List.flatten (List.replicate k (blinkBlock c))) =
      List.flatten (List.replicate k [COLOR_CLEAR, c])
  | 0 => rfl
  | k + 1 => by
    rw [List.replicate_succ, List.flatten_cons, writesOf_append,
      writesOf_join_replicate c k, List.replicate_succ, List.flatten_cons]
    rfl

theorem getLast?_join_replicate {α : Type} (b : List α) (x : α) (hb : b.getLast? = some x) :
    ∀ k, 1 ≤ k → (List.flatten (List.replicate k b)).getLast? = some x
  | 0, h => absurd h (by omega)
  | 1, _ => by simpa using hb
  | k + 2, _ => by
    rw [List.replicate_succ, List.flatten_cons]
    rw [List.getLast?_append_of_ne_nil]
    · exact getLast?_join_replicate b x hb (k + 1) (by omega)
    · intro hnil
      have := getLast?_join_replicate b x hb (k + 1) (by omega)
      rw [hnil] at this
      simp at this

theorem blinkmeGo_blocks (stopflag : Nat → Int) (pixelnum : Int) (color : Int × Int × Int) :
    ∀ (n i : Nat), ∃ k, k ≤ n ∧
      blinkmeGo stopflag pixelnum color i n =
        List.flatten (List.replicate k (blinkBlock color))
  | 0, _ => ⟨0, Nat.le_refl 0, rfl⟩
  | n + 1, i => by
    by_cases h : stopflag i = pixelnum
    · refine ⟨1, by omega, ?_⟩
      simp [blinkmeGo, h]
    · obtain ⟨k, hk, he⟩ := blinkmeGo_blocks stopflag pixelnum color n (i + 1)
      refine ⟨k + 1, by omega, ?_⟩
      simp [blinkmeGo, h, he, List.replicate_succ]

theorem blinkme_blocks (stopflag : Nat → Int) (pixelnum : Int) (color : Int × Int × Int)
    (time blinkrate : ℚ) :
    ∃ k, k ≤ (pyInt (time / blinkrate)).toNat ∧
      blinkme stopflag pixelnum color time blinkrate =
        List.flatten (List.replicate k (blinkBlock color)) :=
  blinkmeGo_blocks stopflag pixelnum color _ 0

theorem pyInt_toNat_of_lt_one (q : ℚ) (h : q < 1) : (pyInt q).toNat = 0 := by
  unfold pyInt
  split
  · have hf : ⌊q⌋ < 1 := Int.floor_lt.mpr (by exact_mod_cast h)
    omega
  · have hc : ⌈q⌉ ≤ 0 := Int.ceil_le.mpr (by push_cast; linarith)
    omega

/-! ## Helper lemmas on the display-loop thread bookkeeping -/

theorem low_start (ledstate : List ((Int × Int × Int) × Bool)) :
    liveOnlyWindy (start_threads ledstate) ledstate := by
  induction ledstate with
  | nil => trivial
  | cons led leds ih => exact ⟨fun h => h, ih⟩

theorem rotate_station_live (fastBlink : Bool) (conditionDict : List (String × Condition))
    (s : String) (led : (Int × Int × Int) × Bool) (l : Bool)
    (h : l = true → led.2 = true)
    (hr : rotate_station fastBlink conditionDict s led l = true) : led.2 = true := by
  rcases Bool.eq_false_or_eq_true led.2 with h2 | h2
  · exact h2
  · rcases Bool.eq_false_or_eq_true l with h4 | h4
    · exact h h4
    · unfold rotate_station at hr
      rw [h2, h4] at hr
      simp at hr

theorem low_rotate (fastBlink : Bool) (conditionDict : List (String × Condition)) :
    ∀ (ss : List String) (leds : List ((Int × Int × Int) × Bool)) (ls : List Bool),
      liveOnlyWindy ls leds →
        liveOnlyWindy (rotation_pass fastBlink conditionDict ss leds ls) leds
  | [], leds, ls, h => by simpa [rotation_pass] using h
  | _ :: _, [], ls, h => by simpa [rotation_pass] using h
  | _ :: _, _ :: _, [], _ => by simp [rotation_pass, liveOnlyWindy]
  | s :: ss, led :: leds, l :: ls, h => by
    obtain ⟨h1, h2⟩ := h
    exact ⟨fun hr => rotate_station_live fastBlink conditionDict s led l h1 hr,
      low_rotate fastBlink conditionDict ss leds ls h2⟩

theorem low_iterate (fastBlink : Bool) (conditionDict : List (String × Condition))
    (ss : List String) (leds : List ((Int × Int × Int) × Bool)) :
    ∀ (n : Nat) (ls : List Bool), liveOnlyWindy ls leds →
      liveOnlyWindy ((fun l => rotation_pass fastBlink conditionDict ss leds l)^[n] ls) leds
  | 0, ls, h => h
  | n + 1, ls, h => by
    rw [Function.iterate_succ_apply]
    exact low_iterate fastBlink conditionDict ss leds n _
      (low_rotate fastBlink conditionDict ss leds ls h)

theorem low_join :
    ∀ (leds : List ((Int × Int × Int) × Bool)) (ls : List Bool),
      liveOnlyWindy ls leds → ∀ b ∈ join_all_windy leds ls, b = false
  | [], [], _ => by simp [join_all_windy]
  | [], _ :: _, h => absurd h (by simp [liveOnlyWindy])
  | _ :: _, [], _ => by simp [join_all_windy]
  | led :: leds, l :: ls, h => by
    obtain ⟨h1, h2⟩ := h
    intro b hb
    rw [join_all_windy] at hb
    rcases List.mem_cons.mp hb with hhd | htl
    · subst hhd
      rcases Bool.eq_false_or_eq_true led.2 with h3 | h3
      · simp [h3]
      · rcases Bool.eq_false_or_eq_true l with h4 | h4
        · exact absurd (h1 h4) (by simp [h3])
        · simp [h3, h4]
    · exact low_join leds ls h2 b htl

/-- The target entry of the NULL placeholder is off and not animated when
the condition dictionary has no NULL binding. -/
theorem targetEntry_null (cfg : Config) (conditions : List (String × Condition))
    (hnull : dictGet conditions "NULL" = none) :
    targetEntry cfg conditions "NULL" = (COLOR_CLEAR, false) := by
  unfold targetEntry
  rw [if_neg (by decide), hnull]

/-- calc_target_colors of an all-placeholder station list is all off and
not animated. -/
theorem calc_target_colors_all_null (cfg : Config) (conditions : List (String × Condition))
    (hnull : dictGet conditions "NULL" = none) :
    ∀ stations : List String, (∀ s ∈ stations, s = "NULL") →
      calc_target_colors cfg stations conditions =
        List.replicate stations.length (COLOR_CLEAR, false)
  | [], _ => rfl
  | s :: ss, hall => by
    have hs : s = "NULL" := hall s (List.mem_cons_self s ss)
    have tail := calc_target_colors_all_null cfg conditions hnull ss
      (fun x hx => hall x (List.mem_cons_of_mem s hx))
    subst hs
    simp only [calc_target_colors, List.map_cons, List.length_cons, List.replicate_succ]
    simp only [calc_target_colors] at tail
    rw [tail, targetEntry_null cfg conditions hnull]

/-! ## Claims -/

/-- Claim C1, counterexample: a feed with one raw record for KBOS that has
no flight category yields an empty condition dictionary, so get_weather
does not emit one Station Condition entry per input station, and KBOS has
no entry at all (it is dropped, not classified UNKNOWN). -/
theorem c1_counterexample :
    get_weather sourceConfig (Except.ok [recNoCategory]) = Except.ok [] ∧
    dictGet ([] : List (String × Condition)) "KBOS" = none ∧
    ¬ (([] : List (String × Condition)).length = [recNoCategory].length) := by
  refine ⟨rfl, rfl, by decide⟩

/-- Claim C1 as amended: a raw record with no flight category is skipped by
get_weather (after a printed notice): the fold treats the record exactly as
if it were absent from the feed, so no condition entry is ever emitted for
it. -/
theorem c1_missing_category_skipped (cfg : Config) (m : RawMetar) (rest : List RawMetar)
    (obsVar : Option Int) (acc : List (String × Condition))
    (h : m.flight_category = none) :
    getWeatherAux cfg (m :: rest) obsVar acc = getWeatherAux cfg rest obsVar acc := by
  simp [getWeatherAux, h]

/-- Witness for c1_missing_category_skipped at the concrete record. -/
theorem c1_missing_category_skipped_witness :
    getWeatherAux sourceConfig [recNoCategory] none [] =
      getWeatherAux sourceConfig [] none [] :=
  c1_missing_category_skipped sourceConfig recNoCategory [] none [] rfl

/-- Claim C2, counterexample: when the fetch raises, the refresh cycle
returns that very exception: the error raises out of the cycle instead of
being logged and recovered. -/
theorem c2_counterexample :
    refresh_cycle sourceConfig ["KBOS"] (Except.error "URLError: urlopen failed") =
      Except.error "URLError: urlopen failed" := rfl

/-- Claim C2 as amended: a fetch or parse failure propagates uncaught
through get_weather and out of the refresh cycle; there is no logging,
backoff, or fall-through to the previous Target State. -/
theorem c2_fetch_failure_propagates (cfg : Config) (airports : List String) (e : String) :
    refresh_cycle cfg airports (Except.error e) = Except.error e := rfl

/-- Claim C4 (code bug): for the record whose observation_time element is
absent (and is the first record processed), get_weather raises
UnboundLocalError instead of defaulting the observation time to now; with
observation_time present, all other absent optional fields do default to
zero-like values as the claim says. -/
theorem c4_obstime_unbound :
    get_weather sourceConfig (Except.ok [recNoObsTime]) =
      Except.error "UnboundLocalError: obsTime" ∧
    get_weather sourceConfig (Except.ok [recOnlyObsTime]) =
      Except.ok [("KJFK",
        { flightCategory := "VFR", windDir := "", windSpeed := 0, windGustSpeed := 0,
          windGust := false, vis := 0, obs := "", tempC := 0, dewpointC := 0,
          altimHg := 0, lightning := false, skyConditions := [], obsTime := 0 })] :=
  ⟨rfl, rfl⟩

/-- Claim C6: the animate flag of a station whose condition was classified
from raw record m equals the wind-animation switch AND of the claimed wind
formula: (alwaysBlinkForGusts AND gust present) OR (gust present AND
gust > threshold) OR (speed > threshold); in particular it is false
whenever the switch is off. -/
theorem c6_animate_formula (cfg : Config) (conditions : List (String × Condition))
    (station : String) (m : RawMetar) (fc : String) (t : Int)
    (hs : ¬ station = "") (hc : dictGet conditions station = some (mkCondition cfg m fc t)) :
    (targetEntry cfg conditions station).2 =
      (cfg.activateWind &&
        ((cfg.alwaysBlinkForGusts && m.wind_gust_kt.isSome) ||
         (m.wind_gust_kt.isSome && decide (m.wind_gust_kt.getD 0 > cfg.windBlinkThreshold)) ||
         decide (m.wind_speed_kt.getD 0 > cfg.windBlinkThreshold))) := by
  unfold targetEntry
  rw [if_neg hs, hc]
  cases hg : m.wind_gust_kt with
  | none => simp [windyOf, mkCondition, windGustOf, hg]
  | some g =>
    simp only [windyOf, mkCondition, windGustOf, hg, Option.isSome_some, Option.getD_some,
      Bool.and_true, Bool.true_and]
    cases cfg.activateWind <;> cases cfg.alwaysBlinkForGusts <;>
      simp [Bool.or_comm, Bool.or_left_comm, Bool.or_assoc]

/-- Witness for c6_animate_formula at a gusty KBOS record under the source
configuration. -/
theorem c6_animate_formula_witness :
    (targetEntry sourceConfig [("KBOS", mkCondition sourceConfig recGusty "VFR" 0)] "KBOS").2 =
      (sourceConfig.activateWind &&
        ((sourceConfig.alwaysBlinkForGusts && recGusty.wind_gust_kt.isSome) ||
         (recGusty.wind_gust_kt.isSome &&
           decide (recGusty.wind_gust_kt.getD 0 > sourceConfig.windBlinkThreshold)) ||
         decide (recGusty.wind_speed_kt.getD 0 > sourceConfig.windBlinkThreshold))) :=
  c6_animate_formula sourceConfig [("KBOS", mkCondition sourceConfig recGusty "VFR" 0)]
    "KBOS" recGusty "VFR" 0 (by decide) rfl

/-- Claim C7: a condition with lightningPresent true gets the lightning
color regardless of its flight category, and its animate flag is exactly
the wind rule, unaffected by the lightning branch. -/
theorem c7_lightning_priority (cfg : Config) (conditions : List (String × Condition))
    (station : String) (cond : Condition)
    (hs : ¬ station = "") (hc : dictGet conditions station = some cond)
    (hl : cond.lightning = true) :
    targetEntry cfg conditions station = (COLOR_LIGHTNING, windyOf cfg cond) := by
  unfold targetEntry
  rw [if_neg hs, hc]
  simp [hl]

/-- Witness for c7_lightning_priority: a condition with both lightning and
IFR category resolves to the lightning color, not the IFR color. -/
theorem c7_lightning_priority_witness :
    targetEntry sourceConfig [("KJFK", condLightningIFR)] "KJFK" =
      (COLOR_LIGHTNING, windyOf sourceConfig condLightningIFR) :=
  c7_lightning_priority sourceConfig [("KJFK", condLightningIFR)] "KJFK" condLightningIFR
    (by decide) rfl rfl

/-- Claim C8: calc_target_colors returns exactly one entry per input
position, in the same order (entry i is the target of station i), and an
all-placeholder list yields all entries (off color, not animated). -/
theorem c8_target_shape (cfg : Config) (stations : List String)
    (conditions : List (String × Condition)) :
    (calc_target_colors cfg stations conditions).length = stations.length ∧
    (∀ i : Nat, (calc_target_colors cfg stations conditions)[i]? =
      (stations[i]?).map (targetEntry cfg conditions)) ∧
    ((∀ s ∈ stations, s = "NULL") → dictGet conditions "NULL" = none →
      calc_target_colors cfg stations conditions =
        List.replicate stations.length (COLOR_CLEAR, false)) := by
  refine ⟨by simp [calc_target_colors], fun i => by simp [calc_target_colors], ?_⟩
  intro hall hnull
  exact calc_target_colors_all_null cfg conditions hnull stations hall

/-- Witness for c8_target_shape on a two-placeholder list with an empty
condition dictionary. -/
theorem c8_target_shape_witness :
    calc_target_colors sourceConfig ["NULL", "NULL"] [] =
      List.replicate (["NULL", "NULL"] : List String).length (COLOR_CLEAR, false) :=
  (c8_target_shape sourceConfig ["NULL", "NULL"] []).2.2 (by decide) rfl

/-- Claim C3, counterexample: in the configuration with no external display
attached, the blink thread started for windy KBOS is still live at the end
of the display-loop pass (the else branch at source line 350 only sleeps),
so blink tasks from the prior cycle do remain at the top of the next
refresh cycle.  The windy ledstate is reachable: it is computed from the
feed record recKBOS by get_weather and calc_target_colors. -/
theorem c3_counterexample :
    get_weather sourceConfig (Except.ok [recKBOS]) = Except.ok [("KBOS", condKBOS)] ∧
    calc_target_colors sourceConfig ["KBOS"] [("KBOS", condKBOS)] = [(COLOR_VFR, true)] ∧
    cycle_end_threads false FAST_BLINK_DISPLAYED_STATION 1 ["KBOS"] [("KBOS", condKBOS)]
      [(COLOR_VFR, true)] = [true] := by
  refine ⟨rfl, by decide, by decide⟩

/-- Claim C3 as amended: when an external display is attached, the
kill-all pass at the end of the rotation cancels and joins every blink
thread, so no blink task survives into the next cycle; without a display
the threads are never joined (see the counterexample). -/
theorem c3_display_joins_all (fastBlink : Bool) (numLoops : Nat) (airports : List String)
    (conditionDict : List (String × Condition))
    (ledstate : List ((Int × Int × Int) × Bool)) :
    (cycle_end_threads true fastBlink numLoops airports conditionDict ledstate).all
      (fun b => !b) = true := by
  have h0 : liveOnlyWindy (start_threads ledstate) ledstate := low_start ledstate
  have h1 := low_iterate fastBlink conditionDict airports ledstate numLoops
    (start_threads ledstate) h0
  have h2 := low_join ledstate _ h1
  rw [List.all_eq_true]
  intro b hb
  simp only [cycle_end_threads, if_true] at hb
  rw [h2 b hb]
  rfl

/-- Claim C5, counterexample: one full uncancelled blink cycle contains two
half-period sleeps but only one cancellation poll (the poll sits at the end
of the full cycle), so blinkme does not poll once per half blink cycle. -/
theorem c5_counterexample :
    halfSleepsIn (blinkme (fun _ => DONTSTOP) 2 COLOR_MVFR 2 2) = 2 ∧
    checksIn (blinkme (fun _ => DONTSTOP) 2 COLOR_MVFR 2 2) = 1 ∧
    ¬ (checksIn (blinkme (fun _ => DONTSTOP) 2 COLOR_MVFR 2 2) =
        halfSleepsIn (blinkme (fun _ => DONTSTOP) 2 COLOR_MVFR 2 2)) := by
  have hn : (pyInt ((2 : ℚ) / 2)).toNat = 1 := by norm_num [pyInt]
  have hb : blinkme (fun _ => DONTSTOP) 2 COLOR_MVFR 2 2 =
      blinkmeGo (fun _ => DONTSTOP) 2 COLOR_MVFR 0 1 := by
    unfold blinkme
    rw [hn]
  refine ⟨?_, ?_, ?_⟩ <;> rw [hb] <;> decide

/-- Claim C5 as amended: every blinkme trace is a whole number of full
blink cycles, each cycle carrying exactly one cancellation poll after its
two half-period sleeps, so cancellation is observed within at most one
full blink period. -/
theorem c5_full_cycle_poll (stopflag : Nat → Int) (pixelnum : Int)
    (color : Int × Int × Int) (time blinkrate : ℚ) :
    ∃ k, blinkme stopflag pixelnum color time blinkrate =
        List.flatten (List.replicate k (blinkBlock color)) ∧
      checksIn (blinkme stopflag pixelnum color time blinkrate) = k ∧
      halfSleepsIn (blinkme stopflag pixelnum color time blinkrate) = 2 * k := by
  obtain ⟨k, _, he⟩ := blinkme_blocks stopflag pixelnum color time blinkrate
  exact ⟨k, he, by rw [he, checksIn_join_replicate],
    by rw [he, halfSleepsIn_join_replicate]⟩

/-- Claim C9: a blinkme run that performed at least one cycle ends at a
phase boundary (its final event is the cancellation poll) and the last
color it wrote to its pixel is the on-color, never the mid-blink
off-color. -/
theorem c9_cancel_leaves_on_color (stopflag : Nat → Int) (pixelnum : Int)
    (color : Int × Int × Int) (time blinkrate : ℚ)
    (h : ¬ blinkme stopflag pixelnum color time blinkrate = []) :
    (writesOf (blinkme stopflag pixelnum color time blinkrate)).getLast? = some color ∧
    (blinkme stopflag pixelnum color time blinkrate).getLast? = some BlinkEv.check := by
  obtain ⟨k, _, he⟩ := blinkme_blocks stopflag pixelnum color time blinkrate
  have hk : 1 ≤ k := by
    rcases Nat.eq_zero_or_pos k with h0 | h1
    · subst h0
      rw [he] at h
      simp at h
    · exact h1
  constructor
  · rw [he, writesOf_join_replicate]
    exact getLast?_join_replicate [COLOR_CLEAR, color] color (by simp) k hk
  · rw [he]
    exact getLast?_join_replicate (blinkBlock color) BlinkEv.check (by simp [blinkBlock]) k hk

/-- Witness for c9_cancel_leaves_on_color: a run of blinkme canceled at its
first poll (STOPFLAG names its pixel) ends on the poll with the on-color as
its last write. -/
theorem c9_cancel_leaves_on_color_witness :
    (writesOf (blinkme (fun _ => 2) 2 COLOR_MVFR 2 2)).getLast? = some COLOR_MVFR ∧
    (blinkme (fun _ => 2) 2 COLOR_MVFR 2 2).getLast? = some BlinkEv.check :=
  c9_cancel_leaves_on_color (fun _ => 2) 2 COLOR_MVFR 2 2 (by
    have hn : (pyInt ((2 : ℚ) / 2)).toNat = 1 := by norm_num [pyInt]
    unfold blinkme
    rw [hn]
    decide)

/-- Claim C10: with a positive blink rate, blinkme performs at most
int(time/blinkrate) on/off cycles whether or not it is canceled, and when
time is below one blink period the loop bound is zero: the trace is empty,
so no write to the pixel happens at all. -/
theorem c10_blink_bound (stopflag : Nat → Int) (pixelnum : Int)
    (color : Int × Int × Int) (time blinkrate : ℚ) (hr : 0 < blinkrate) :
    checksIn (blinkme stopflag pixelnum color time blinkrate) ≤
      (pyInt (time / blinkrate)).toNat ∧
    (time < blinkrate → blinkme stopflag pixelnum color time blinkrate = []) := by
  obtain ⟨k, hk, he⟩ := blinkme_blocks stopflag pixelnum color time blinkrate
  constructor
  · rw [he, checksIn_join_replicate]
    exact hk
  · intro hlt
    have h1 : time / blinkrate < 1 := (div_lt_one hr).mpr hlt
    have h0 : (pyInt (time / blinkrate)).toNat = 0 := pyInt_toNat_of_lt_one _ h1
    unfold blinkme
    rw [h0]
    rfl

/-- Witness for c10_blink_bound: time 1 below blink rate 2 gives the empty
trace and the zero bound. -/
theorem c10_blink_bound_witness :
    checksIn (blinkme (fun _ => DONTSTOP) 2 COLOR_VFR 1 2) ≤
      (pyInt ((1 : ℚ) / 2)).toNat ∧
    ((1 : ℚ) < 2 → blinkme (fun _ => DONTSTOP) 2 COLOR_VFR 1 2 = []) :=
  c10_blink_bound (fun _ => DONTSTOP) 2 COLOR_VFR 1 2 (by norm_num)
